import Mathlib

/-!
Shallow embedding of the GCP instance scripts
(`src/Instance/vm_instance_operation.py`, `src/Instance/start.py`).

The two source files contain an operation waiter
(`wait_for_extended_operation`) and four thin instance commands.  The
waiter and the pure request-building part of `create_instance` (including
`disk_from_image` and the machine-type regex normalization) are embedded
here as pure Lean functions.  External collaborators (the compute client,
the network transport, stdout status lines) are out of scope; diagnostics
written to the error stream are modelled as an explicit list of lines, a
raised exception as the `Except.error` branch of the returned value.
-/

namespace GCP

/-- One warning attached to a terminal extended operation, as read by the
waiter: a code and a message. -/
structure OperationWarning where
  code : String
  message : String
  deriving Repr, DecidableEq

/-- The attributes of a terminal extended-operation handle that
`wait_for_extended_operation` consumes.  `result` is the opaque result
payload returned by `operation.result(timeout=...)`; `error_code` is the
empty string when the operation carries no error (Python truthiness of the
optional string); `exception` is the value of `operation.exception()`,
`none` when the service supplies no exception object. -/
structure ExtendedOperation where
  result : String
  error_code : String
  error_message : String
  name : String
  warnings : List OperationWarning
  exception : Option String
  deriving Repr, DecidableEq

/-- What `wait_for_extended_operation` raises on a terminal error:
the service-supplied exception when `operation.exception()` is not `None`,
otherwise `RuntimeError(operation.error_message)`. -/
inductive RaisedExc where
  | service (payload : String)
  | runtimeError (message : String)
  deriving Repr, DecidableEq

/-- Embedding of `wait_for_extended_operation` (identical in both source
files) on a terminal handle.  Returns the lines printed to `sys.stderr`
in order, paired with the outcome: `Except.ok` the result payload when
control reaches `return result`, `Except.error` the raised exception when
the `raise` statement runs.  The `timeout` argument is consumed by the
external `operation.result` call and does not influence the terminal-state
behaviour modelled here. -/
def wait_for_extended_operation (operation : ExtendedOperation)
    (verbose_name : String := "operation") (timeout : Int := 300) :
    List String × Except RaisedExc String :=
  let _ := timeout
  let result := operation.result
  if operation.error_code ≠ "" then
    (["Error during " ++ verbose_name ++ ": [Code: " ++ operation.error_code
        ++ "]: " ++ operation.error_message,
      "Operation ID: " ++ operation.name],
     Except.error (match operation.exception with
       | some e => RaisedExc.service e
       | none => RaisedExc.runtimeError operation.error_message))
  else if operation.warnings ≠ [] then
    (("Warnings during " ++ verbose_name ++ ":\n")
       :: operation.warnings.map (fun w => " - " ++ w.code ++ ": " ++ w.message),
     Except.ok result)
  else
    ([], Except.ok result)

/-- Parameters block of an attached disk, as set by `disk_from_image`
(`compute_v1.AttachedDiskInitializeParams`). -/
structure AttachedDiskInitializeParams where
  source_image : String := ""
  disk_size_gb : Int := 0
  disk_type : String := ""
  deriving Repr, DecidableEq

/-- An attached disk (`compute_v1.AttachedDisk`), with the three fields the
source assigns. -/
structure AttachedDisk where
  initialize_params : AttachedDiskInitializeParams := {}
  auto_delete : Bool := false
  boot : Bool := false
  deriving Repr, DecidableEq

/-- Embedding of `disk_from_image`: builds an `AttachedDisk` by field
assignment from its five arguments, `auto_delete` defaulting to `True`. -/
def disk_from_image (disk_type : String) (disk_size_gb : Int) (boot : Bool)
    (source_image : String) (auto_delete : Bool := true) : AttachedDisk :=
  { initialize_params :=
      { source_image := source_image
        disk_size_gb := disk_size_gb
        disk_type := disk_type }
    auto_delete := auto_delete
    boot := boot }

/-- A character of the regex character class `[a-z\d\-]`. -/
def isMachineTypeClassChar (c : Char) : Bool :=
  (decide ('a' ≤ c) && decide (c ≤ 'z'))
    || (decide ('0' ≤ c) && decide (c ≤ '9'))
    || c == '-'

/-- Embedding of `re.match(r"^zones/[a-z\d\-]+/machineTypes/[a-z\d\-]+$", s)`
viewed as a Boolean: `True` exactly when the match object is non-`None`.
Since `/` is not in the character class, each `+` run is the maximal run of
class characters and no backtracking arises; Python's `$` (no MULTILINE)
also accepts a single trailing newline. -/
def matchesMachineTypeRegex (s : String) : Bool :=
  let cs := s.data
  if cs.take 6 = "zones/".data then
    let rest := cs.drop 6
    let seg1 := rest.takeWhile isMachineTypeClassChar
    let rest1 := rest.dropWhile isMachineTypeClassChar
    if seg1 ≠ [] && rest1.take 14 = "/machineTypes/".data then
      let rest2 := rest1.drop 14
      let seg2 := rest2.takeWhile isMachineTypeClassChar
      let rest3 := rest2.dropWhile isMachineTypeClassChar
      seg2 ≠ [] && (rest3 = [] || rest3 = ['\n'])
    else false
  else false

/-- The string `compute_v1.AccessConfig.Type.ONE_TO_ONE_NAT.name`. -/
def ONE_TO_ONE_NAT_name : String := "ONE_TO_ONE_NAT"

/-- The string `AccessConfig.NetworkTier.PREMIUM.name`. -/
def PREMIUM_name : String := "PREMIUM"

/-- The string `compute_v1.Scheduling.ProvisioningModel.SPOT.name`. -/
def SPOT_name : String := "SPOT"

/-- An access config (`compute_v1.AccessConfig`) with the fields the source
assigns; `nat_i_p = none` models the field being left unset so the service
assigns an ephemeral address. -/
structure AccessConfig where
  type_ : String := ""
  name : String := ""
  network_tier : String := ""
  nat_i_p : Option String := none
  deriving Repr, DecidableEq

/-- A network interface (`compute_v1.NetworkInterface`); `none` on the
optional fields models the field never being assigned. -/
structure NetworkInterface where
  network : String := ""
  subnetwork : Option String := none
  network_i_p : Option String := none
  access_configs : List AccessConfig := []
  deriving Repr, DecidableEq

/-- A scheduling sub-object (`compute_v1.Scheduling`) with the fields the
source assigns and their proto defaults. -/
structure Scheduling where
  preemptible : Bool := false
  provisioning_model : String := ""
  instance_termination_action : String := ""
  deriving Repr, DecidableEq

/-- An accelerator config; `create_instance` only passes the caller's list
through, so its contents are opaque here. -/
structure AcceleratorConfig where
  payload : String := ""
  deriving Repr, DecidableEq

/-- The instance spec (`compute_v1.Instance`) as built by `create_instance`;
`scheduling = none` and `hostname = none` model those fields never being
assigned. -/
structure Instance where
  network_interfaces : List NetworkInterface := []
  name : String := ""
  disks : List AttachedDisk := []
  machine_type : String := ""
  guest_accelerators : List AcceleratorConfig := []
  scheduling : Option Scheduling := none
  hostname : Option String := none
  deletion_protection : Bool := false
  deriving Repr, DecidableEq

/-- Python truthiness of an optional string: `None` and `""` are falsy. -/
def truthyStr : Option String → Bool
  | some s => s ≠ ""
  | none => false

/-- Python truthiness of an optional list: `None` and `[]` are falsy. -/
def truthyList {α : Type} : Option (List α) → Bool
  | some l => !l.isEmpty
  | none => false

/-- The default value of the `disks` parameter of `create_instance`.  In the
source this is a list literal in the parameter default position, so Python
evaluates it exactly once, when the `def` statement runs, and every call
that omits `disks` receives this same shared list object. -/
def create_instance_default_disks : List AttachedDisk :=
  [disk_from_image "zones/us-central1-c/diskTypes/pd-balanced" 10 true
      "projects/debian-cloud/global/images/debian-11-bullseye-v20230615"]

/-- Embedding of the request-building part of `create_instance`: everything
from the `NetworkInterface()` construction down to the fully populated
`Instance` object that is placed in the insert request.  Returns the built
instance paired with the list of deprecation-warning messages emitted via
`warnings.warn` during the build.  The external client calls
(`insert`, the waiter invocation, `get`) and the stdout status lines are
out of scope.  The source performs conditional field assignments on fresh
mutable objects; each is rendered here as the field's final value guarded
by the same condition.  In particular the two sequential scheduling
assignments (`preemptible` first, then `spot`) make the `spot` branch
overwrite the whole scheduling object last, hence `spot` is tested first
in the field's value below. -/
def create_instance
    (project_id : String) (zone : String) (instance_name : String)
    (disks : List AttachedDisk := create_instance_default_disks)
    (machine_type : String := "n1-standard-1")
    (network_link : String := "global/networks/default")
    (subnetwork_link : Option String := none)
    (internal_ip : Option String := none)
    (external_access : Bool := false)
    (external_ipv4 : Option String := none)
    (accelerators : Option (List AcceleratorConfig) := none)
    (preemptible : Bool := false)
    (spot : Bool := false)
    (instance_termination_action : String := "STOP")
    (custom_hostname : Option String := none)
    (delete_protection : Bool := false) :
    Instance × List String :=
  let _ := project_id
  let network_interface : NetworkInterface :=
    { network := network_link
      subnetwork := if truthyStr subnetwork_link then subnetwork_link else none
      network_i_p := if truthyStr internal_ip then internal_ip else none
      access_configs :=
        if external_access then
          [{ type_ := ONE_TO_ONE_NAT_name
             name := "External NAT"
             network_tier := PREMIUM_name
             nat_i_p := if truthyStr external_ipv4 then external_ipv4 else none }]
        else [] }
  let inst : Instance :=
    { network_interfaces := [network_interface]
      name := instance_name
      disks := disks
      machine_type :=
        if matchesMachineTypeRegex machine_type then machine_type
        else "zones/" ++ zone ++ "/machineTypes/" ++ machine_type
      guest_accelerators :=
        if truthyList accelerators then accelerators.getD [] else []
      scheduling :=
        if spot then
          some { provisioning_model := SPOT_name
                 instance_termination_action := instance_termination_action }
        else if preemptible then
          some { preemptible := true }
        else none
      hostname := custom_hostname
      deletion_protection := delete_protection }
  let warns : List String :=
    if preemptible then ["Preemptible VMs are being replaced by Spot VMs."] else []
  (inst, warns)

/-- A sample terminal operation handle carrying both a non-empty error code
and a non-empty warnings list, with no service-supplied exception. -/
def errorOp : ExtendedOperation :=
  { result := "R"
    error_code := "E"
    error_message := "boom"
    name := "op-1"
    warnings := [⟨"W", "wm"⟩]
    exception := none }

/-- A sample terminal operation handle with an empty error code and two
warnings. -/
def warnOp : ExtendedOperation :=
  { result := "R"
    error_code := ""
    error_message := ""
    name := "op-2"
    warnings := [⟨"W1", "m1"⟩, ⟨"W2", "m2"⟩]
    exception := none }

/-- Claim C1: for every operation handle whose error code is non-empty,
`wait_for_extended_operation` fails and does not return a result: it emits
to the error stream a diagnostic carrying the label, error code, error
message and the operation identifier, then raises the service-supplied
exception when the handle provides one, otherwise a generic `RuntimeError`
carrying the error message. -/
theorem wait_error_code_fails (op : ExtendedOperation) (vn : String) (t : Int)
    (h : op.error_code ≠ "") :
    (wait_for_extended_operation op vn t).1 =
      ["Error during " ++ vn ++ ": [Code: " ++ op.error_code ++ "]: " ++ op.error_message,
       "Operation ID: " ++ op.name] ∧
    (∀ r, (wait_for_extended_operation op vn t).2 ≠ Except.ok r) ∧
    (∀ e, op.exception = some e →
      (wait_for_extended_operation op vn t).2 = Except.error (RaisedExc.service e)) ∧
    (op.exception = none →
      (wait_for_extended_operation op vn t).2 =
        Except.error (RaisedExc.runtimeError op.error_message)) := by
  refine ⟨by simp [wait_for_extended_operation, h], ?_, ?_, ?_⟩
  · intro r
    cases hx : op.exception <;> simp [wait_for_extended_operation, h, hx]
  · intro e hx
    simp [wait_for_extended_operation, h, hx]
  · intro hx
    simp [wait_for_extended_operation, h, hx]

/-- Concrete instance of `wait_error_code_fails` at `errorOp`. -/
theorem wait_error_code_fails_witness :
    errorOp.error_code ≠ "" ∧
    ((wait_for_extended_operation errorOp "instance creation" 300).1 =
      ["Error during instance creation: [Code: E]: boom", "Operation ID: op-1"] ∧
     (∀ r, (wait_for_extended_operation errorOp "instance creation" 300).2 ≠ Except.ok r) ∧
     (wait_for_extended_operation errorOp "instance creation" 300).2 =
       Except.error (RaisedExc.runtimeError "boom")) := by
  have h := wait_error_code_fails errorOp "instance creation" 300 (by decide)
  exact ⟨by decide, h.1, h.2.1, h.2.2.2 rfl⟩

/-- Claim C2: for every operation handle with an empty error code and a
non-empty warnings list, `wait_for_extended_operation` returns the
operation's result payload, and the error stream receives a banner line
followed by exactly one diagnostic line per warning carrying that
warning's code and message. -/
theorem wait_success_with_warnings (op : ExtendedOperation) (vn : String) (t : Int)
    (h1 : op.error_code = "") (h2 : op.warnings ≠ []) :
    (wait_for_extended_operation op vn t).2 = Except.ok op.result ∧
    (wait_for_extended_operation op vn t).1 =
      ("Warnings during " ++ vn ++ ":\n")
        :: op.warnings.map (fun w => " - " ++ w.code ++ ": " ++ w.message) ∧
    ((wait_for_extended_operation op vn t).1).length = op.warnings.length + 1 := by
  simp [wait_for_extended_operation, h1, h2]

/-- Concrete instance of `wait_success_with_warnings` at `warnOp`. -/
theorem wait_success_with_warnings_witness :
    warnOp.error_code = "" ∧ warnOp.warnings ≠ [] ∧
    ((wait_for_extended_operation warnOp "operation" 300).2 = Except.ok "R" ∧
     (wait_for_extended_operation warnOp "operation" 300).1 =
       ["Warnings during operation:\n", " - W1: m1", " - W2: m2"]) := by
  have h := wait_success_with_warnings warnOp "operation" 300 rfl (by decide)
  exact ⟨rfl, by decide, h.1, by simpa using h.2.1⟩

/-- Claim C3, counterexample: at `errorOp` (non-empty error code and one
warning `⟨W, wm⟩`) the waiter emits only the two error lines; the warning
line never reaches the error stream, so warnings are not emitted when the
operation failed. -/
theorem wait_warnings_dropped_on_error_cex :
    errorOp.warnings ≠ [] ∧
    (wait_for_extended_operation errorOp "operation" 300).1 =
      ["Error during operation: [Code: E]: boom", "Operation ID: op-1"] ∧
    " - W: wm" ∉ (wait_for_extended_operation errorOp "operation" 300).1 := by
  decide

/-- Claim C3, amended: for every operation handle with a non-empty warnings
list, the warnings are emitted to the error stream only when the error
code is empty; when the error code is non-empty the waiter raises before
reaching the warnings block and the error stream receives only the two
error lines, no warning lines. -/
theorem wait_warnings_only_without_error (op : ExtendedOperation) (vn : String) (t : Int)
    (h2 : op.warnings ≠ []) :
    (op.error_code = "" →
      (wait_for_extended_operation op vn t).1 =
        ("Warnings during " ++ vn ++ ":\n")
          :: op.warnings.map (fun w => " - " ++ w.code ++ ": " ++ w.message)) ∧
    (op.error_code ≠ "" →
      (wait_for_extended_operation op vn t).1 =
        ["Error during " ++ vn ++ ": [Code: " ++ op.error_code ++ "]: " ++ op.error_message,
         "Operation ID: " ++ op.name]) := by
  constructor
  · intro h1
    simp [wait_for_extended_operation, h1, h2]
  · intro h1
    simp [wait_for_extended_operation, h1]

/-- Concrete instance of `wait_warnings_only_without_error` at `warnOp`. -/
theorem wait_warnings_only_without_error_witness :
    warnOp.warnings ≠ [] ∧
    (warnOp.error_code = "" →
      (wait_for_extended_operation warnOp "operation" 300).1 =
        ["Warnings during operation:\n", " - W1: m1", " - W2: m2"]) := by
  have h := wait_warnings_only_without_error warnOp "operation" 300 (by decide)
  exact ⟨by decide, fun h1 => by simpa using h.1 h1⟩

/-- Claim C4: `create_instance` uses the supplied machine-type string
verbatim when it matches the regex
`zones/[a-z\d\-]+/machineTypes/[a-z\d\-]+` anchored at both ends, and
otherwise synthesizes `zones/<zone>/machineTypes/<supplied string>`; in
particular `n1-standard-1` in zone `us-central1-c` becomes
`zones/us-central1-c/machineTypes/n1-standard-1`. -/
theorem create_instance_machine_type_norm
    (p z n : String) (d : List AttachedDisk) (mt nl : String)
    (sn ip : Option String) (ea : Bool) (eip : Option String)
    (acc : Option (List AcceleratorConfig)) (pre sp : Bool) (ita : String)
    (ch : Option String) (dp : Bool) :
    (matchesMachineTypeRegex mt = true →
      (create_instance p z n d mt nl sn ip ea eip acc pre sp ita ch dp).1.machine_type = mt) ∧
    (matchesMachineTypeRegex mt = false →
      (create_instance p z n d mt nl sn ip ea eip acc pre sp ita ch dp).1.machine_type =
        "zones/" ++ z ++ "/machineTypes/" ++ mt) ∧
    (create_instance p "us-central1-c" n d "n1-standard-1" nl sn ip ea eip
        acc pre sp ita ch dp).1.machine_type =
      "zones/us-central1-c/machineTypes/n1-standard-1" := by
  refine ⟨fun h => by simp [create_instance, h], fun h => by simp [create_instance, h], ?_⟩
  rfl

/-- Concrete instance of `create_instance_machine_type_norm`: an already
fully-qualified machine type passes through unchanged, even when the call
supplies a different zone. -/
theorem create_instance_machine_type_norm_witness :
    matchesMachineTypeRegex "zones/europe-west2-b/machineTypes/e2-small" = true ∧
    (create_instance "p" "us-central1-c" "vm" [] "zones/europe-west2-b/machineTypes/e2-small"
        "global/networks/default" none none false none none false false "STOP"
        none false).1.machine_type =
      "zones/europe-west2-b/machineTypes/e2-small" :=
  ⟨by decide,
   (create_instance_machine_type_norm "p" "us-central1-c" "vm" []
      "zones/europe-west2-b/machineTypes/e2-small" "global/networks/default"
      none none false none none false false "STOP" none false).1 (by decide)⟩

/-- Claim C5: with `preemptible = True` and `spot = False` the built
instance's scheduling object has `preemptible` set and exactly one
deprecation warning is emitted; with `spot = True` the scheduling object's
provisioning model is `SPOT` and its termination action equals the
`instance_termination_action` argument, whose default is `STOP`. -/
theorem create_instance_scheduling_flags
    (p z n : String) (d : List AttachedDisk) (mt nl : String)
    (sn ip : Option String) (ea : Bool) (eip : Option String)
    (acc : Option (List AcceleratorConfig)) (pre : Bool) (ita : String)
    (ch : Option String) (dp : Bool) :
    ((create_instance p z n d mt nl sn ip ea eip acc true false ita ch dp).1.scheduling =
        some { preemptible := true, provisioning_model := "",
               instance_termination_action := "" } ∧
     (create_instance p z n d mt nl sn ip ea eip acc true false ita ch dp).2 =
        ["Preemptible VMs are being replaced by Spot VMs."]) ∧
    (∃ s : Scheduling,
      (create_instance p z n d mt nl sn ip ea eip acc pre true ita ch dp).1.scheduling = some s ∧
      s.provisioning_model = "SPOT" ∧
      s.instance_termination_action = ita) ∧
    (create_instance p z n d mt nl sn ip ea eip acc false true).1.scheduling =
      some { preemptible := false, provisioning_model := "SPOT",
             instance_termination_action := "STOP" } := by
  refine ⟨⟨by simp [create_instance], by simp [create_instance]⟩, ?_, by
    simp [create_instance, SPOT_name]⟩
  exact ⟨{ preemptible := false, provisioning_model := "SPOT",
           instance_termination_action := ita },
         by simp [create_instance, SPOT_name], rfl, rfl⟩

/-- Claim C6: with both `preemptible = True` and `spot = True` the built
instance's scheduling object is the freshly constructed spot one — the
`spot` branch runs last and overwrites the whole object, so `preemptible`
is back to its default `False` and only the spot configuration remains. -/
theorem create_instance_preemptible_and_spot_last_write_wins
    (p z n : String) (d : List AttachedDisk) (mt nl : String)
    (sn ip : Option String) (ea : Bool) (eip : Option String)
    (acc : Option (List AcceleratorConfig)) (ita : String)
    (ch : Option String) (dp : Bool) :
    (create_instance p z n d mt nl sn ip ea eip acc true true ita ch dp).1.scheduling =
      some { preemptible := false, provisioning_model := "SPOT",
             instance_termination_action := ita } := by
  simp [create_instance, SPOT_name]

/-- Claim C7: with `external_access = True` the built network interface
carries exactly one access config of type `ONE_TO_ONE_NAT`, named
`External NAT`, on the `PREMIUM` network tier; its NAT address is pinned
to `external_ipv4` when one is supplied (here `1.2.3.4`) and left unset
when `external_ipv4` is `None`; with `external_access = False` no access
config is attached. -/
theorem create_instance_external_access_config
    (p z n : String) (d : List AttachedDisk) (mt nl : String)
    (sn ip : Option String) (acc : Option (List AcceleratorConfig)) (pre sp : Bool)
    (ita : String) (ch : Option String) (dp : Bool) (eip : Option String) :
    (∃ ni : NetworkInterface,
      (create_instance p z n d mt nl sn ip true (some "1.2.3.4")
          acc pre sp ita ch dp).1.network_interfaces = [ni] ∧
      ni.access_configs =
        [{ type_ := "ONE_TO_ONE_NAT", name := "External NAT",
           network_tier := "PREMIUM", nat_i_p := some "1.2.3.4" }]) ∧
    (∃ ni : NetworkInterface,
      (create_instance p z n d mt nl sn ip true none
          acc pre sp ita ch dp).1.network_interfaces = [ni] ∧
      ni.access_configs =
        [{ type_ := "ONE_TO_ONE_NAT", name := "External NAT",
           network_tier := "PREMIUM", nat_i_p := none }]) ∧
    (∃ ni : NetworkInterface,
      (create_instance p z n d mt nl sn ip false eip
          acc pre sp ita ch dp).1.network_interfaces = [ni] ∧
      ni.access_configs = []) := by
  refine ⟨⟨_, rfl, ?_⟩, ⟨_, rfl, ?_⟩, ⟨_, rfl, ?_⟩⟩ <;>
    simp [truthyStr, ONE_TO_ONE_NAT_name, PREMIUM_name]

/-- Claim C8: `disk_from_image` is pure field assignment — its result's
initialize-params carry exactly the given source image, size and disk
type, its `boot` and `auto_delete` fields equal the given flags,
`auto_delete` defaults to `True`, and the quoted concrete input sets all
five fields exactly as given. -/
theorem disk_from_image_pure_fields (dt : String) (sz : Int) (b : Bool) (si : String) (ad : Bool) :
    (disk_from_image dt sz b si ad).initialize_params.source_image = si ∧
    (disk_from_image dt sz b si ad).initialize_params.disk_size_gb = sz ∧
    (disk_from_image dt sz b si ad).initialize_params.disk_type = dt ∧
    (disk_from_image dt sz b si ad).boot = b ∧
    (disk_from_image dt sz b si ad).auto_delete = ad ∧
    disk_from_image dt sz b si = disk_from_image dt sz b si true ∧
    disk_from_image "pd-balanced" 10 true "debian-11" true =
      { initialize_params :=
          { source_image := "debian-11", disk_size_gb := 10, disk_type := "pd-balanced" }
        auto_delete := true
        boot := true } :=
  ⟨rfl, rfl, rfl, rfl, rfl, rfl, rfl⟩

/-- Claim C9: the default of the `disks` parameter of `create_instance` is
a list literal evaluated once at definition time — modelled as the single
constant `create_instance_default_disks` — holding exactly one boot disk
of type `zones/us-central1-c/diskTypes/pd-balanced`, size 10 GB, built
from the debian-11 image with `auto_delete = True`; every call receiving
that default attaches this same list to the instance it builds. -/
theorem create_instance_default_disks_shared
    (p z n : String) (mt nl : String) (sn ip : Option String) (ea : Bool)
    (eip : Option String) (acc : Option (List AcceleratorConfig)) (pre sp : Bool)
    (ita : String) (ch : Option String) (dp : Bool) :
    create_instance_default_disks =
      [disk_from_image "zones/us-central1-c/diskTypes/pd-balanced" 10 true
          "projects/debian-cloud/global/images/debian-11-bullseye-v20230615"] ∧
    create_instance_default_disks =
      [{ initialize_params :=
           { source_image := "projects/debian-cloud/global/images/debian-11-bullseye-v20230615"
             disk_size_gb := 10
             disk_type := "zones/us-central1-c/diskTypes/pd-balanced" }
         auto_delete := true
         boot := true }] ∧
    (create_instance p z n create_instance_default_disks mt nl sn ip ea eip
        acc pre sp ita ch dp).1.disks = create_instance_default_disks ∧
    (create_instance p z n).1.disks = create_instance_default_disks := by
  refine ⟨rfl, rfl, by simp [create_instance], by simp [create_instance]⟩

/-- Claim C10: in `create_instance` an optional string argument passed as
the empty string behaves exactly as if it were `None`, because each of the
three fields is guarded by a truthiness test: with `subnetwork_link = ""`
no subnetwork is set, with `internal_ip = ""` no internal IP is set, and
with `external_access = True` and `external_ipv4 = ""` the access config
carries no pinned NAT address. -/
theorem create_instance_empty_string_like_none
    (p z n : String) (d : List AttachedDisk) (mt nl : String)
    (acc : Option (List AcceleratorConfig)) (pre sp : Bool) (ita : String)
    (ch : Option String) (dp : Bool) :
    create_instance p z n d mt nl (some "") (some "") true (some "") acc pre sp ita ch dp =
      create_instance p z n d mt nl none none true none acc pre sp ita ch dp ∧
    (∃ ni : NetworkInterface,
      (create_instance p z n d mt nl (some "") (some "") true (some "")
          acc pre sp ita ch dp).1.network_interfaces = [ni] ∧
      ni.subnetwork = none ∧ ni.network_i_p = none ∧
      ni.access_configs =
        [{ type_ := "ONE_TO_ONE_NAT", name := "External NAT",
           network_tier := "PREMIUM", nat_i_p := none }]) := by
  refine ⟨by simp [create_instance, truthyStr], ⟨_, rfl, ?_, ?_, ?_⟩⟩ <;>
    simp [truthyStr, ONE_TO_ONE_NAT_name, PREMIUM_name]

end GCP
